import Mathlib

/-!
Verification of the dynamic LLM routing gateway.

This file gives a shallow embedding, in Lean, of the core components of the
routing gateway: the heuristic classifier (`classifier.py`), the LangGraph
router workflow (`langgraph_router.py`), the conversation-scoped semantic
cache (`conversation_cache.py`), the rate limiter (`rate_limiter.py`) and the
cost accounting of the backend fallback adapter (`fallback.py`).  Python
floats for times, prices and similarity thresholds are modelled as rationals;
machine-level float rounding is not modelled.  Each claim of the
specification is then settled as a theorem about these definitions.
-/
/-! ## Classifier (`classifier.py`)

The deployed classifier object (`config.Classifier`) may wrap a trained
model; in the source tree no `best_model` directory exists and
`CLASSIFIER_MODEL_PATH` is unset, so `pipe is None` and `classify_text`
always takes the heuristic path, which is what is embedded here. -/

/-- Python `str.isspace` on the characters `str.split()` splits on. -/
def pyIsSpace (c : Char) : Bool :=
  c = ' ' || c = '\t' || c = '\n' || c = '\r' || c = '\x0b' || c = '\x0c'

/-- Count of maximal non-whitespace runs: `len(text.split())` in Python.
The boolean argument records whether we are inside a word. -/
def countWordsAux : List Char → Bool → Nat
  | [], _ => 0
  | c :: t, inw =>
    if pyIsSpace c then countWordsAux t false
    else (if inw then 0 else 1) + countWordsAux t true

/-- `len(text.split())`. -/
def pyWordCount (s : String) : Nat := countWordsAux s.data false

/-- Substring test on character lists: Python `needle in haystack`. -/
def infixCheck (needle : List Char) : List Char → Bool
  | [] => needle.isEmpty
  | c :: rest => needle.isPrefixOf (c :: rest) || infixCheck needle rest

/-- Python `needle in haystack` for strings. -/
def strContains (haystack needle : String) : Bool :=
  infixCheck needle.data haystack.data

/-- Python `text.lower()` (ASCII-adequate, as are all keywords involved). -/
def lowerStr (s : String) : String := ⟨s.data.map Char.toLower⟩

/-- `complex_words` from `classifier.py`. -/
def complex_words : List String :=
  ["quantum", "algorithm", "complex", "advanced", "sophisticated",
   "multi-step", "comprehensive", "intricate", "theoretical", "develop",
   "design", "architecture", "implement", "optimize", "analyze"]

/-- `simple_words` from `classifier.py`. -/
def simple_words : List String :=
  ["what", "who", "when", "where", "define", "explain", "simple",
   "is", "are", "capital", "name", "basic"]

/-- `code_words` from `classifier.py`. -/
def code_words : List String :=
  ["code", "function", "program", "script", "application", "api"]

/-- `sum(1 for word in ws if word in text_lower)`. -/
def keywordScore (ws : List String) (textLower : String) : Nat :=
  (ws.filter (fun w => strContains textLower w)).length

/-- `classifier.classify_text`, heuristic path (lines 47-73). -/
def classify_text (text : String) : String :=
  let text_lower := lowerStr text
  let word_count := pyWordCount text
  let complex_score := keywordScore complex_words text_lower
  let simple_score := keywordScore simple_words text_lower
  let code_score := keywordScore code_words text_lower
  if 2 ≤ complex_score ∨ 50 < word_count ∨ 2 ≤ code_score then "A"
  else if 1 ≤ simple_score ∧ word_count < 20 ∧ complex_score = 0 then "S"
  else "M"

/-- The three-value tier space named by the specification. -/
inductive SpecTier
  | Simple
  | Medium
  | Advanced
deriving DecidableEq, Repr

/-- Transcription of the specification rule for the classifier, in the
specification vocabulary: evaluated in order, first match wins:
(a) Advanced if complex-keyword matches ≥ 2, or word count > 50, or
code-keyword matches ≥ 2; (b) Simple if simple-keyword matches ≥ 1 and
word count < 20 and complex-keyword matches = 0; (c) else Medium. -/
def specClassify (text : String) : SpecTier :=
  let text_lower := lowerStr text
  let word_count := pyWordCount text
  let complex_score := keywordScore complex_words text_lower
  let simple_score := keywordScore simple_words text_lower
  let code_score := keywordScore code_words text_lower
  if 2 ≤ complex_score ∨ 50 < word_count ∨ 2 ≤ code_score then .Advanced
  else if 1 ≤ simple_score ∧ word_count < 20 ∧ complex_score = 0 then .Simple
  else .Medium

/-- The letter the code uses for each specification tier. -/
def specTierLetter : SpecTier → String
  | .Simple => "S"
  | .Medium => "M"
  | .Advanced => "A"

/-! ## Router workflow state (`langgraph_router.py`)

`RouterState` mirrors the TypedDict of `langgraph_router.py`; every field of
the initial state built in `Router.route` is present.  Model entries in
`models_config` can be bare identifier strings or `[display_name,
identifier]` pairs, mirrored by `PyModel`. -/

/-- A candidate entry as stored in a models config: a bare string or a
`[display_name, identifier]` pair. -/
inductive PyModel
  | str (s : String)
  | pair (display identifier : String)
deriving DecidableEq, Repr

/-- `selected_model[1] if isinstance(selected_model, (list, tuple)) else
selected_model`: the identifier carried by a candidate entry. -/
def PyModel.extract : PyModel → String
  | .str s => s
  | .pair _ i => i

/-- The `RouterState` TypedDict. -/
structure RouterState where
  query : String
  classification : Option String := none
  model_tier : Option String := none
  selected_model : Option String := none
  cache_hit : Bool := false
  cached_response : Option String := none
  llm_response : Option String := none
  used_model : Option String := none
  error : Option String := none
  retry_count : Nat := 0
deriving DecidableEq, Repr

/-- `Router.classify_query` (lines 99-121), with the injected classifier
passed as the function `clf`.  `if not state.get("query")` is the Python
falsiness test on the query string, true exactly for the empty string. -/
def classifyQueryF (clf : String → String) (st : RouterState) : RouterState :=
  if st.query.isEmpty then
    { st with error := some "No query provided for classification" }
  else
    let classification := clf st.query
    if classification = "S" ∨ classification = "M" ∨ classification = "A" then
      { st with classification := some classification, error := none }
    else
      { st with error := some ("Invalid classification: " ++ classification) }

/-! ## Cost accounting (`fallback.py`) -/

/-- The `PRICES` table (per 1M tokens), floats rendered as rationals. -/
def PRICES : List (String × ℚ × ℚ) :=
  [("qwen-2.5-72b-instruct", (7/10, 7/10)),
   ("mistral-7b-instruct", (1/4, 1/4)),
   ("llama-3.3-8b-instruct", (3/20, 3/20)),
   ("qwen/qwen2.5-vl-32b-instruct:free", (3/20, 3/20)),
   ("openai/gpt-oss-20b:free", (3/20, 3/20)),
   ("mistralai/devstral-small-2505:free", (3/20, 3/20)),
   ("qwen/qwq-32b:free", (3/20, 3/20)),
   ("qwen/qwen-2.5-coder-32b-instruct:free", (3/20, 3/20)),
   ("deepseek/deepseek-r1-distill-llama-70b:free", (3/20, 3/20)),
   ("meta-llama/llama-3.3-70b-instruct:free", (3/20, 3/20))]

/-- `fallback.calculate_cost` (lines 52-63): the function first returns 0.0
when the model is absent from `PRICES`; the later `except KeyError` fallback
to the deepseek row can therefore never fire and is not a reachable branch
of this definition. -/
def calculate_cost (model_name : String) (input_tokens output_tokens : ℕ) : ℚ :=
  match PRICES.lookup model_name with
  | none => 0
  | some price => (input_tokens * price.1 + output_tokens * price.2) / 1000000

/-- The cost rule as the claim states it: the price-table row keyed by the
model identifier, with the designated default row
(`deepseek/deepseek-r1-distill-llama-70b:free`) used when the identifier is
not in the table. -/
def specCalculateCost (model_name : String) (input_tokens output_tokens : ℕ) : ℚ :=
  let dflt := (PRICES.lookup "deepseek/deepseek-r1-distill-llama-70b:free").getD (0, 0)
  let price := (PRICES.lookup model_name).getD dflt
  (input_tokens * price.1 + output_tokens * price.2) / 1000000

/-! ## Router workflow (`langgraph_router.py`)

The LangGraph workflow is embedded as a fuel-indexed executor over the node
graph built in `Router._create_workflow`.  The injected collaborators
(classifier, semantic cache, LLM client) are parameters of `RouterEnv`; the
executor runs a single query, so the cache and backend behaviours are given
for that query: `cacheGet` is the outcome of `self.cache.get(query)`
(`.error` models a raised exception), and `llmCall k` is the outcome of the
backend call made when `retry_count = k` (`.error` models a raised
exception, whose message `str(e)` becomes the state's error). -/

/-- `Router._map_classification_to_tier`:
`{"S": "tier1", "M": "tier2", "A": "tier3"}.get(classification, "tier1")`. -/
def mapClassificationToTier (c : String) : String :=
  if c = "S" then "tier1"
  else if c = "M" then "tier2"
  else if c = "A" then "tier3"
  else "tier1"

/-- `_map_classification_to_tier(state.get("classification", "S"))`: the
key is always present in the state dict, so a `None` value reaches
`mapping.get`, which returns the default "tier1". -/
def tierOfClassification : Option String → String
  | some c => mapClassificationToTier c
  | none => "tier1"

/-- Python truthiness of an optional string. -/
def pyTruthy : Option String → Bool
  | none => false
  | some s => !s.isEmpty

/-- `self.models_config.get(tier_key, [])`. -/
def cfgGet (cfg : List (String × List PyModel)) (k : String) : List PyModel :=
  (cfg.lookup k).getD []

/-- The injected collaborators of one `Router` run. -/
structure RouterEnv where
  models_config : List (String × List PyModel)
  clf : String → String
  cacheGet : Except String (Option String)
  cacheSet : Except String Unit
  llmCall : Nat → Except String String

/-- `Router.select_model` (lines 124-175).  The method body cannot raise in
this embedding, so the enclosing `try/except` has no error branch. -/
def selectModelF (env : RouterEnv) (st : RouterState) : RouterState :=
  match st.classification with
  | none => { st with error := some "No classification available" }
  | some tier =>
    if tier.isEmpty then { st with error := some "No classification available" }
    else
      let tier_key := mapClassificationToTier tier
      let models := cfgGet env.models_config tier_key
      if models.isEmpty then
        { st with error := some ("No models available for " ++ tier_key) }
      else
        let retry_count := st.retry_count
        let max_retries := models.length * 3
        if max_retries ≤ retry_count then
          { st with error := some ("Max retries (" ++ toString max_retries ++
              ") exceeded for " ++ tier_key) }
        else
          let model_idx := retry_count % models.length
          let selected_model := (models.getD model_idx (.str "")).extract
          { st with model_tier := some tier_key,
                    selected_model := some selected_model,
                    retry_count := retry_count + 1,
                    error := none }

/-- `Router.call_llm` (lines 183-227), specialised to an LLM client that
returns a plain response string; a raised exception becomes
`{**state, "error": str(e)}`. -/
def callLLMF (env : RouterEnv) (st : RouterState) : RouterState :=
  match st.selected_model with
  | none => { st with error := some "No model selected for LLM call" }
  | some model_identifier =>
    if model_identifier.isEmpty then
      { st with error := some "No model selected for LLM call" }
    else
      match env.llmCall st.retry_count with
      | .ok response =>
          { st with llm_response := some response,
                    used_model := some model_identifier }
      | .error e => { st with error := some e }

/-- The three labels `Router.handle_llm_response` can return. -/
inductive LLMBranch
  | success
  | retry
  | err
deriving DecidableEq, Repr

/-- `Router.handle_llm_response` (lines 238-264), including its in-place
write of `state["error"]` when the retry budget is exhausted with no error
recorded. -/
def handleLLMResponseF (env : RouterEnv) (st : RouterState) :
    LLMBranch × RouterState :=
  if pyTruthy st.llm_response then (.success, st)
  else
    let max_models :=
      (cfgGet env.models_config (tierOfClassification st.classification)).length
    let max_retries := max_models * 3
    if max_retries ≤ st.retry_count then
      if pyTruthy st.error then (.err, st)
      else
        (.err, { st with error := some ("Max retries (" ++ toString max_retries ++
            ") exceeded") })
    else if pyTruthy st.error then (.retry, st)
    else (.err, { st with error := some "No response generated - unexpected state" })

/-- `Router.should_retry` (lines 266-273): `true` means "retry". -/
def shouldRetryF (env : RouterEnv) (st : RouterState) : Bool :=
  let max_models :=
    (cfgGet env.models_config (tierOfClassification st.classification)).length
  st.retry_count < max_models * 3

/-- The state update of `Router.check_cache` once `self.cache.get` has
returned `r`. -/
def checkCacheUpd (r : Option String) (st : RouterState) : RouterState :=
  match r with
  | some response =>
      { st with cache_hit := true, cached_response := some response,
                llm_response := some response }
  | none => { st with cache_hit := false }

/-- `Router.store_in_cache` (lines 66-82): the whole body runs inside
`try/except`, so whatever `self.cache.set` does, the state is returned
unchanged. -/
def storeInCacheF (env : RouterEnv) (st : RouterState) : RouterState :=
  match env.cacheSet with
  | .ok _ => st
  | .error _ => st

/-- The nodes of the workflow graph built in `Router._create_workflow`. -/
inductive RouterNode
  | check_cache
  | classify_query
  | select_model
  | call_llm
  | handle_error
  | store_in_cache
deriving DecidableEq, Repr

/-- Outcome of running the workflow: reached `END`, raised a Python
exception, or ran out of executor fuel. -/
inductive DispatchOutcome
  | done (st : RouterState)
  | raised (msg : String)
  | fuelOut
deriving DecidableEq, Repr

/-- Fuel-indexed executor of the workflow graph, following the edges of
`_create_workflow`: entry `check_cache`; `check_cache -[should_use_cache]->
END / classify_query`; `classify_query -> select_model -> call_llm
-[handle_llm_response]-> store_in_cache / select_model / handle_error`;
`store_in_cache -> END`; `handle_error -[should_retry]-> select_model /
END`.  Alongside the outcome it returns the list of candidate indices
chosen by the successful `select_model` steps, in order.  (LangGraph's own
recursion limit, `WORKFLOW_RECURSION_LIMIT = 50`, is configuration of the
external workflow engine and corresponds here to the fuel argument.) -/
def execRouter (env : RouterEnv) : Nat → RouterNode → RouterState →
    DispatchOutcome × List Nat
  | 0, _, _ => (.fuelOut, [])
  | fuel+1, .check_cache, st =>
    match env.cacheGet with
    | .error e => (.raised e, [])
    | .ok r =>
      let st' := checkCacheUpd r st
      if st'.cache_hit then (.done st', [])
      else execRouter env fuel .classify_query st'
  | fuel+1, .classify_query, st =>
    execRouter env fuel .select_model (classifyQueryF env.clf st)
  | fuel+1, .select_model, st =>
    let st' := selectModelF env st
    let sel :=
      if st'.retry_count = st.retry_count + 1 then
        [st.retry_count %
          (cfgGet env.models_config (tierOfClassification st.classification)).length]
      else []
    let r := execRouter env fuel .call_llm st'
    (r.1, sel ++ r.2)
  | fuel+1, .call_llm, st =>
    let st' := callLLMF env st
    match handleLLMResponseF env st' with
    | (.success, st2) => execRouter env fuel .store_in_cache st2
    | (.retry, st2) => execRouter env fuel .select_model st2
    | (.err, st2) => execRouter env fuel .handle_error st2
  | fuel+1, .handle_error, st =>
    if shouldRetryF env st then execRouter env fuel .select_model st
    else (.done st, [])
  | _+1, .store_in_cache, st => (.done (storeInCacheF env st), [])

/-- The `initial_state` built in `Router.route`. -/
def initRouterState (q : String) : RouterState := { query := q }

/-- A router environment in which the cache misses and every backend call
fails, raising the exception message `errs k` at `retry_count = k`. -/
def failEnv (cfg : List (String × List PyModel)) (clf : String → String)
    (errs : Nat → String) : RouterEnv :=
  { models_config := cfg, clf := clf, cacheGet := .ok none,
    cacheSet := .ok (), llmCall := fun k => .error (errs k) }

/-! ## Semantic cache (`conversation_cache.py`)

One `ConversationCache` instance is its entry list; the sentence-embedding
model is an injected parameter `encode`, file persistence is not modelled.
Similarity scores are represented exactly: sklearn's
`cosine_similarity(q, e)` equals `d / sqrt(a * b)` where `d` is the dot
product and `a`, `b` the squared norms, with zero vectors normalised to
zero rows (similarity 0).  `SimVal` carries `(d, a, b)` and the comparisons
the code performs on scores are implemented exactly on this
representation, so they remain computable over `ℚ`. -/

/-- One entry of `self.cache`. -/
structure CacheEntry where
  embedding : List ℚ
  response : String
  timestamp : ℚ
  ttl : ℚ
deriving DecidableEq, Repr, Inhabited

/-- Dot product of two embedding vectors. -/
def dotQ (u v : List ℚ) : ℚ := (List.zipWith (fun x y => x * y) u v).sum

/-- An exact cosine-similarity score: the value `d / √(a·b)` when
`a, b > 0`, and `0` when either squared norm is `0` (sklearn maps zero
rows to zero). -/
structure SimVal where
  d : ℚ
  a : ℚ
  b : ℚ
deriving DecidableEq, Repr

/-- Normalise the zero-vector case to the representation of `0`. -/
def SimVal.norm (x : SimVal) : SimVal :=
  if x.a ≤ 0 ∨ x.b ≤ 0 then ⟨0, 1, 1⟩ else x

/-- Exact strict comparison of two similarity scores
(`value x < value y`), by sign analysis and cross-multiplied squares. -/
def SimVal.blt (x y : SimVal) : Bool :=
  let x := x.norm
  let y := y.norm
  if x.d < 0 then
    if 0 ≤ y.d then true
    else decide (y.d ^ 2 * (x.a * x.b) < x.d ^ 2 * (y.a * y.b))
  else
    if y.d ≤ 0 then false
    else decide (x.d ^ 2 * (y.a * y.b) < y.d ^ 2 * (x.a * x.b))

/-- Exact comparison of a similarity score against a rational threshold
(`value x ≥ t`). -/
def SimVal.bge (x : SimVal) (t : ℚ) : Bool :=
  let x := x.norm
  if 0 < t then decide (0 < x.d ∧ t ^ 2 * (x.a * x.b) ≤ x.d ^ 2)
  else if 0 ≤ x.d then true
  else decide (x.d ^ 2 ≤ t ^ 2 * (x.a * x.b))

/-- The real value a `SimVal` stands for. -/
noncomputable def SimVal.toReal (x : SimVal) : ℝ :=
  let x := x.norm
  (x.d : ℝ) / (Real.sqrt (x.a : ℝ) * Real.sqrt (x.b : ℝ))

/-- `np.argmax` scan: keeps the first maximum, replacing the running best
only on strict improvement. -/
def pyArgmaxAux : List SimVal → Nat → SimVal → Nat → Nat
  | [], _, _, best => best
  | x :: rest, i, bv, best =>
    if SimVal.blt bv x then pyArgmaxAux rest (i + 1) x i
    else pyArgmaxAux rest (i + 1) bv best

/-- `np.argmax` over similarity scores (0 on the empty list, never reached
by the code because of the emptiness check in `get`). -/
def pyArgmax : List SimVal → Nat
  | [] => 0
  | x :: rest => pyArgmaxAux rest 1 x 0

/-- `ConversationCache._cleanup` (lines 68-71): keep entries with
`now - timestamp <= ttl`. -/
def cacheCleanup (now : ℚ) (cache : List CacheEntry) : List CacheEntry :=
  cache.filter (fun it => now - it.timestamp ≤ it.ttl)

/-- The similarity score of the query embedding against one entry. -/
def simOf (qe emb : List ℚ) : SimVal := ⟨dotQ qe emb, dotQ qe qe, dotQ emb emb⟩

/-- `ConversationCache.get` (lines 73-90): cleanup, embed, cosine
similarities, first-max `argmax`, threshold test (per-call threshold
falling back to the instance threshold). -/
def cacheGetF (encode : String → List ℚ) (selfThreshold now : ℚ)
    (cache : List CacheEntry) (query : String) (thresholdArg : Option ℚ) :
    Option String :=
  let live := cacheCleanup now cache
  if live.isEmpty then none
  else
    let qe := encode query
    let sims := live.map (fun it => simOf qe it.embedding)
    let best_idx := pyArgmax sims
    let best_score := sims.getD best_idx ⟨0, 1, 1⟩
    let threshold := thresholdArg.getD selfThreshold
    if SimVal.bge best_score threshold then
      some ((live.getD best_idx default).response)
    else none

/-- `ConversationCache.set` (lines 92-118) for a string response: embed and
append, with the per-call ttl falling back to the instance default. -/
def cacheSetF (encode : String → List ℚ) (defaultTtl now : ℚ)
    (cache : List CacheEntry) (query response : String)
    (ttlArg : Option ℚ) : List CacheEntry :=
  cache ++ [{ embedding := encode query, response := response,
              timestamp := now, ttl := ttlArg.getD defaultTtl }]

/-- The constant embedding used for concrete cache scenarios. -/
def encOne : String → List ℚ := fun _ => [1]

/-! ## Rate limiter (`rate_limiter.py`)

`RLState` is the limiter's state restricted to one identifier and its
(optional) user: the `defaultdict` buckets of distinct identifiers never
interact, so claims about a single identifier are faithfully stated on
this view.  Times are rationals; `nextReset` is the value
`_get_next_reset_time()` would return (the next UTC-midnight timestamp).
Denial reasons are an enum mirroring the code's reason strings. -/

/-- The four user tiers of `self.tier_limits`. -/
inductive RLTier
  | free
  | basic
  | premium
  | enterprise
deriving DecidableEq, Repr

/-- `self.tier_limits`, as (daily, hourly, minute) limits. -/
def tierLimits : RLTier → Nat × Nat × Nat
  | .free => (100, 10, 5)
  | .basic => (1000, 100, 20)
  | .premium => (10000, 500, 50)
  | .enterprise => (100000, 5000, 200)

/-- The `RateLimitConfig` dataclass. -/
structure RateLimitConfig where
  requests_per_minute : Nat := 60
  requests_per_hour : Nat := 1000
  requests_per_day : Nat := 10000
  burst_size : Nat := 10
  enable_adaptive : Bool := true
  ban_threshold : Nat := 5
  ban_duration : ℚ := 3600
deriving DecidableEq, Repr

/-- `RateLimitConfig()` with all defaults. -/
def defaultRateLimitConfig : RateLimitConfig := {}

/-- The `UserQuota` dataclass (minus the redundant user_id). -/
structure UserQuota where
  tier : RLTier
  daily_limit : Nat
  used_today : Nat
  reset_time : ℚ
deriving DecidableEq, Repr

/-- The limiter's mutable state for one identifier/user. -/
structure RLState where
  minute_bucket : List ℚ
  hour_bucket : List ℚ
  day_bucket : List ℚ
  violations : Nat
  banned_until : Option ℚ
  user_quota : Option UserQuota
  system_load : List ℚ
deriving DecidableEq, Repr

/-- The state of a fresh identifier. -/
def emptyRLState : RLState :=
  { minute_bucket := [], hour_bucket := [], day_bucket := [],
    violations := 0, banned_until := none, user_quota := none,
    system_load := [] }

/-- The denial reasons of `check_rate_limit` (reason strings as an enum). -/
inductive DenyReason
  | banned
  | minuteExceeded (lim : Nat)
  | hourExceeded (lim : Nat)
  | dayExceeded (lim : Nat)
  | quotaExceeded
  | highLoad
deriving DecidableEq, Repr

/-- `_cleanup_buckets` for one window: pop from the left while the head is
older than the window. -/
def dropExpired (window now : ℚ) : List ℚ → List ℚ
  | [] => []
  | ts :: rest =>
    if window < now - ts then dropExpired window now rest else ts :: rest

/-- `_record_violation` (lines 182-189). -/
def recordViolation (cfg : RateLimitConfig) (now : ℚ) (st : RLState) :
    RLState :=
  let v := st.violations + 1
  { st with violations := v,
            banned_until :=
              if cfg.ban_threshold ≤ v then some (now + cfg.ban_duration)
              else st.banned_until }

/-- `_check_user_quota` (lines 192-219): initialise the quota lazily, reset
it at the daily boundary, then test it.  The (possibly initialised or
reset) quota is stored back in all cases. -/
def checkUserQuota (now nextReset : ℚ) (tier : RLTier)
    (q : Option UserQuota) : (Bool × Option DenyReason) × UserQuota :=
  let q0 := match q with
    | none => { tier := tier, daily_limit := (tierLimits tier).1,
                used_today := 0, reset_time := nextReset }
    | some qq => qq
  let q1 := if q0.reset_time ≤ now then
      { q0 with used_today := 0, reset_time := nextReset } else q0
  if q1.daily_limit ≤ q1.used_today then ((false, some .quotaExceeded), q1)
  else ((true, none), q1)

/-- Average recorded system load. -/
def avgLoad (l : List ℚ) : ℚ := l.sum / l.length

/-- `_check_adaptive_throttle` (lines 222-234). -/
def checkAdaptiveThrottle (load : List ℚ) : Bool × Option DenyReason :=
  if load.isEmpty then (true, none)
  else if 4/5 < avgLoad load then (false, some .highLoad)
  else (true, none)

/-- The body of `check_rate_limit` after the ban check: prune buckets,
test the three windows, the user quota (when a user id was supplied), the
adaptive throttle, then record the admitted request. -/
def checkRateLimitAfterBan (cfg : RateLimitConfig) (now nextReset : ℚ)
    (hasUser : Bool) (tier : RLTier) (st : RLState) :
    (Bool × Option DenyReason) × RLState :=
  let st := { st with
    minute_bucket := dropExpired 60 now st.minute_bucket,
    hour_bucket := dropExpired 3600 now st.hour_bucket,
    day_bucket := dropExpired 86400 now st.day_bucket }
  let limits := tierLimits tier
  if limits.2.2 ≤ st.minute_bucket.length then
    ((false, some (.minuteExceeded limits.2.2)), recordViolation cfg now st)
  else if limits.2.1 ≤ st.hour_bucket.length then
    ((false, some (.hourExceeded limits.2.1)), recordViolation cfg now st)
  else if limits.1 ≤ st.day_bucket.length then
    ((false, some (.dayExceeded limits.1)), recordViolation cfg now st)
  else
    let quotaStep :=
      if hasUser then
        let r := checkUserQuota now nextReset tier st.user_quota
        (r.1, { st with user_quota := some r.2 })
      else ((true, none), st)
    if quotaStep.1.1 = false then (quotaStep.1, quotaStep.2)
    else
      let st := quotaStep.2
      if cfg.enable_adaptive ∧ (checkAdaptiveThrottle st.system_load).1 = false
      then (checkAdaptiveThrottle st.system_load, st)
      else
        ((true, none),
         { st with
           minute_bucket := st.minute_bucket ++ [now],
           hour_bucket := st.hour_bucket ++ [now],
           day_bucket := st.day_bucket ++ [now],
           user_quota :=
             if hasUser then
               match st.user_quota with
               | some q => some { q with used_today := q.used_today + 1 }
               | none => none
             else st.user_quota })

/-- `check_rate_limit` (lines 87-161): ban check (with unban on expiry),
then the main body. -/
def checkRateLimit (cfg : RateLimitConfig) (now nextReset : ℚ)
    (hasUser : Bool) (tier : RLTier) (st : RLState) :
    (Bool × Option DenyReason) × RLState :=
  match st.banned_until with
  | some b =>
    if now < b then ((false, some .banned), st)
    else checkRateLimitAfterBan cfg now nextReset hasUser tier
      { st with banned_until := none, violations := 0 }
  | none => checkRateLimitAfterBan cfg now nextReset hasUser tier st

/-- The values of `get_rate_limit_headers` (lines 268-280), numbers kept
as integers. -/
structure RateLimitHeaders where
  limitMinute : Nat
  limitHour : Nat
  limitDay : Nat
  remainingMinute : Int
  remainingHour : Int
  remainingDay : Int
deriving DecidableEq, Repr

/-- `get_rate_limit_headers` (note: it reads the buckets without pruning
them first). -/
def getRateLimitHeaders (tier : RLTier) (st : RLState) : RateLimitHeaders :=
  let limits := tierLimits tier
  { limitMinute := limits.2.2, limitHour := limits.2.1, limitDay := limits.1,
    remainingMinute := (limits.2.2 : Int) - st.minute_bucket.length,
    remainingHour := (limits.2.1 : Int) - st.hour_bucket.length,
    remainingDay := (limits.1 : Int) - st.day_bucket.length }

/-- Run `check_rate_limit` for a sequence of arrival times, collecting the
(allowed, reason) results. -/
def runRequests (cfg : RateLimitConfig) (nextReset : ℚ) (hasUser : Bool)
    (tier : RLTier) : List ℚ → RLState →
    List (Bool × Option DenyReason) × RLState
  | [], st => ([], st)
  | t :: ts, st =>
    let r := checkRateLimit cfg t nextReset hasUser tier st
    let rest := runRequests cfg nextReset hasUser tier ts r.2
    (r.1 :: rest.1, rest.2)

/-! ## Per-request candidate overrides (`Router.route`,
`Router._update_llm_client_with_user_models`)

`Router.route` copies `self.models_config`, prepends the caller's private
models to each tier, pushes the merged per-tier model lists and the
caller's API keys into the shared `self.llm_client`, runs the workflow,
and restores `self.models_config` — but never reverts the LLM client.
`LLMClient` itself lives in the repository's `config` module, which is not
among the sources; its `update_models_config` is modelled from the spec
below.  Only the configuration effects of `route` are modelled here; the
workflow invocation (embedded separately above) reads but does not write
these configurations. -/

/-- One caller-supplied model row as produced by
`crud.get_user_models_by_tier`: `env_var_name` holds the full model path;
`model_path`/`api_key` are present for rows carrying a credential. -/
structure UserModel where
  env_var_name : String
  model_path : Option String
  api_key : Option String
deriving DecidableEq, Repr

/-- Modelled from the spec: the state of the `LLMClient` defined in the
repository's `config` module (absent from the sources).  Per §6 it holds
the ranked candidate list per tier and the credential-resolution map; per
`test_user_model_priority_fix.py` its per-tier fallback handlers expose
exactly the model list last pushed via `update_models_config`. -/
structure LLMClientState where
  cfg : List (String × List PyModel)
  user_api_keys : List (String × String)
deriving DecidableEq, Repr

/-- Modelled from the spec: `LLMClient.update_models_config(updated_config,
user_api_keys)` replaces the client's per-tier model lists and its
credential map with the supplied ones. -/
def updateModelsConfig (_st : LLMClientState)
    (cfg : List (String × List PyModel)) (keys : List (String × String)) :
    LLMClientState :=
  { cfg := cfg, user_api_keys := keys }

/-- The `Router` attributes `route` mutates. -/
structure RouterObj where
  models_config : List (String × List PyModel)
  llm_client : LLMClientState
deriving DecidableEq, Repr

/-- Python dict assignment on an association list. -/
def setAssoc {β : Type} : List (String × β) → String → β →
    List (String × β)
  | [], k, v => [(k, v)]
  | (k', v') :: rest, k, v =>
    if k' = k then (k, v) :: rest else (k', v') :: setAssoc rest k v

/-- Python `==` between candidate values (a string never equals a list). -/
def pyModelEq : PyModel → PyModel → Bool
  | .str a, .str b => a = b
  | .pair a b, .pair c d => a = c ∧ b = d
  | _, _ => false

/-- `model_id.replace(':free', '')` on characters. -/
def stripFree : List Char → List Char
  | ':' :: 'f' :: 'r' :: 'e' :: 'e' :: rest => stripFree rest
  | c :: rest => c :: stripFree rest
  | [] => []

/-- `model_id.split('/')[-1]` on characters; `cur` is the current segment
reversed. -/
def lastSegFrom (cur : List Char) : List Char → List Char
  | [] => cur.reverse
  | '/' :: rest => lastSegFrom [] rest
  | c :: rest => lastSegFrom (c :: cur) rest

/-- `model_id.split('/')[-1].replace(':free', '')`. -/
def shortName (s : String) : String := ⟨stripFree (lastSegFrom [] s.data)⟩

/-- `'/' in model_id`. -/
def hasSlash (s : String) : Bool := s.data.contains '/'

/-- The inner search of `_update_llm_client_with_user_models` (lines
355-366): scan `MODELS_CONFIG[tier]` for `model_id`; a `[name, id]` pair
matches when its identifier equals the string `model_id`, a bare string
matches under Python `==` and is then wrapped as
`[short_name, model_id]`. -/
def findOriginal : List PyModel → PyModel → Option PyModel
  | [], _ => none
  | om :: rest, model_id =>
    match om with
    | .pair a b =>
      match model_id with
      | .str s => if b = s then some (.pair a b) else findOriginal rest (.str s)
      | m => findOriginal rest m
    | .str o =>
      if pyModelEq (.str o) model_id then
        match model_id with
        | .str s => some (.pair (shortName s) s)
        | m => findOriginal rest m
      else findOriginal rest model_id

/-- Lines 368-372: a model id not found in the original config is a
user-added model and becomes `[model_name, model_id]`.  (Candidate ids
reaching this code via `route` are strings; a pair id is kept as-is.) -/
def convertModelId (origs : List PyModel) (model_id : PyModel) : PyModel :=
  match findOriginal origs model_id with
  | some m => m
  | none =>
    match model_id with
    | .str s => .pair (if hasSlash s then shortName s else s) s
    | m => m

/-- Lines 349-377: build one tier of `updated_config`, falling back to
`MODELS_CONFIG[tier]` when the result is empty. -/
def convertTier (MC : List (String × List PyModel)) (tier : String)
    (model_ids : List PyModel) : List PyModel :=
  let origs := (MC.lookup tier).getD []
  let tier_models := model_ids.map (convertModelId origs)
  if tier_models.isEmpty then (MC.lookup tier).getD [] else tier_models

/-- `updated_config`: every tier of `self.models_config` converted. -/
def updatedConfigOf (MC cfg : List (String × List PyModel)) :
    List (String × List PyModel) :=
  cfg.map (fun p => (p.1, convertTier MC p.1 p.2))

/-- Lines 379-384: collect `model_path -> api_key` for every user model
row carrying both fields. -/
def extractUserApiKeys (um : List (String × List UserModel)) :
    List (String × String) :=
  um.foldl
    (fun acc p =>
      p.2.foldl
        (fun acc2 m =>
          match m.model_path, m.api_key with
          | some mp, some key => setAssoc acc2 mp key
          | _, _ => acc2)
        acc)
    []

/-- `Router._update_llm_client_with_user_models` (lines 342-392): push the
converted current config and the user's API keys into the shared client. -/
def updateLLMClientWithUserModels (MC : List (String × List PyModel))
    (r : RouterObj) (um : List (String × List UserModel)) : RouterObj :=
  { r with
    llm_client :=
      updateModelsConfig r.llm_client (updatedConfigOf MC r.models_config)
        (extractUserApiKeys um) }

/-- Lines 309-315 of `route`: prepend `[m['env_var_name'] for m in
user_models[tier]]` to each tier present and non-empty in
`user_models`. -/
def prependUserModels (um : List (String × List UserModel))
    (cfg : List (String × List PyModel)) : List (String × List PyModel) :=
  ["tier1", "tier2", "tier3"].foldl
    (fun acc tier =>
      match um.lookup tier with
      | some l =>
        if l.isEmpty then acc
        else setAssoc acc tier
          ((l.map (fun m => PyModel.str m.env_var_name)) ++
            (acc.lookup tier).getD [])
      | none => acc)
    cfg

/-- The configuration effects of one `Router.route(query, user_models)`
call (lines 303-340): with overrides, save the config, prepend, update the
LLM client, run the workflow (no config effects), restore the config; the
LLM client keeps whatever was pushed.  Without overrides nothing is
touched. -/
def routeEffects (MC : List (String × List PyModel)) (r : RouterObj)
    (user_models : Option (List (String × List UserModel))) : RouterObj :=
  match user_models with
  | none => r
  | some um =>
    let original := r.models_config
    let r1 := { r with models_config := prependUserModels um r.models_config }
    let r2 := updateLLMClientWithUserModels MC r1 um
    { r2 with models_config := original }

/-- The original `MODELS_CONFIG` of the concrete leakage scenario. -/
def mcLeak : List (String × List PyModel) :=
  [("tier1", [.pair "m1" "prov/m1:free"]), ("tier2", []), ("tier3", [])]

/-- The router of the concrete leakage scenario: identifier-keyed config
(as built in `main2.py`), client initialised from `MODELS_CONFIG` with no
user keys. -/
def routerLeak : RouterObj :=
  { models_config := [("tier1", [.str "prov/m1:free"]), ("tier2", []),
      ("tier3", [])],
    llm_client := { cfg := mcLeak, user_api_keys := [] } }

/-- Query A's override: one private tier1 model with its API key. -/
def umLeak : List (String × List UserModel) :=
  [("tier1", [{ env_var_name := "userco/private-model:free",
                model_path := some "userco/private-model:free",
                api_key := some "sk-secret" }])]

/-! ## Theorems: the claims of the specification, settled -/
/-- C2: for every non-empty text, the heuristic classifier agrees with the
specification rule: Advanced exactly when complex-keyword matches ≥ 2 or
word count > 50 or code-keyword matches ≥ 2; otherwise Simple exactly when
simple-keyword matches ≥ 1 and word count < 20 and no complex keyword
matches; otherwise Medium; rules evaluated in that order. -/
theorem c2_heuristic_matches_spec (text : String) (_h : text ≠ "") :
    classify_text text = specTierLetter (specClassify text) := by
  unfold classify_text specClassify
  dsimp only
  split_ifs <;> rfl

/-- Witness for C2 at the concrete input "hello world". -/
theorem c2_heuristic_matches_spec_witness :
    "hello world" ≠ "" ∧
      classify_text "hello world" = specTierLetter (specClassify "hello world") :=
  ⟨by decide, c2_heuristic_matches_spec "hello world" (by decide)⟩

/-- C3 counterexample: on the whitespace-only (non-empty) query `" "`, the
code classifies the query as Medium and sets no error, contradicting the
claim that whitespace-only input fails with a classification error. -/
theorem c3_whitespace_counterexample :
    (classifyQueryF classify_text { query := " " }).classification = some "M" ∧
      (classifyQueryF classify_text { query := " " }).error = none := by
  constructor <;> rfl

/-- C3 (amended): every input is classified into {S, M, A}; the empty
(falsy) query is rejected by `Router.classify_query` with the
"No query provided" error and no classification, while whitespace-only
non-empty input is classified normally. -/
theorem c3_classifier_range_and_empty :
    (∀ text : String,
        classify_text text = "S" ∨ classify_text text = "M" ∨
          classify_text text = "A") ∧
      (classifyQueryF classify_text { query := "" }).error =
          some "No query provided for classification" ∧
      (classifyQueryF classify_text { query := "" }).classification = none := by
  refine ⟨fun text => ?_, rfl, rfl⟩
  unfold classify_text
  dsimp only
  split_ifs <;> simp

/-- C8 counterexample: for a model identifier absent from the price table the
code reports cost 0, not the cost computed from the designated default row. -/
theorem c8_unknown_model_counterexample :
    calculate_cost "unknown/model" 1000 500 ≠
      specCalculateCost "unknown/model" 1000 500 := by
  have h0 : PRICES.lookup "unknown/model" = none := by rfl
  have h1 : calculate_cost "unknown/model" 1000 500 = 0 := by
    unfold calculate_cost
    rw [h0]
  have hd : PRICES.lookup "deepseek/deepseek-r1-distill-llama-70b:free" =
      some ((3 : ℚ)/20, (3 : ℚ)/20) := by rfl
  have h2 : specCalculateCost "unknown/model" 1000 500 = 9/40000 := by
    unfold specCalculateCost
    rw [h0, hd]
    norm_num
  rw [h1, h2]
  norm_num

/-- C8 (amended): for a successful call the reported cost is
`(input_tokens * input_price + output_tokens * output_price) / 1e6` from the
price-table row keyed by the model identifier; when the identifier is not in
the table the cost is 0 (the designated default-row fallback is unreachable
dead code); with prices 0.7/0.7 and 1000 input / 500 output tokens the cost
is exactly 0.00105. -/
theorem c8_cost_formula :
    (∀ (m : String) (i o : ℕ) (p : ℚ × ℚ), PRICES.lookup m = some p →
        calculate_cost m i o = (i * p.1 + o * p.2) / 1000000) ∧
      (∀ (m : String) (i o : ℕ), PRICES.lookup m = none →
        calculate_cost m i o = 0) ∧
      calculate_cost "qwen-2.5-72b-instruct" 1000 500 = 21/20000 := by
  refine ⟨fun m i o p h => ?_, fun m i o h => ?_, ?_⟩
  · unfold calculate_cost
    rw [h]
  · unfold calculate_cost
    rw [h]
  · have h : PRICES.lookup "qwen-2.5-72b-instruct" =
        some ((7 : ℚ)/10, (7 : ℚ)/10) := by rfl
    unfold calculate_cost
    rw [h]
    norm_num

/-- Witness for C8 at concrete inputs: a model in the table and one not in
the table. -/
theorem c8_cost_formula_witness :
    PRICES.lookup "mistral-7b-instruct" = some ((1 : ℚ)/4, (1 : ℚ)/4) ∧
      calculate_cost "mistral-7b-instruct" 100 100 =
        (100 * ((1 : ℚ)/4, (1 : ℚ)/4).1 + 100 * ((1 : ℚ)/4, (1 : ℚ)/4).2) / 1000000 ∧
      PRICES.lookup "not-a-model" = none ∧
      calculate_cost "not-a-model" 100 100 = 0 :=
  ⟨rfl, c8_cost_formula.1 "mistral-7b-instruct" 100 100 _ rfl, rfl,
    c8_cost_formula.2.1 "not-a-model" 100 100 rfl⟩

/-- An in-range `getD` is an element of the list. -/
theorem getD_mem_of_lt {α : Type} {l : List α} {i : Nat} (h : i < l.length)
    (d : α) : l.getD i d ∈ l := by
  rw [List.getD_eq_getElem?_getD, List.getElem?_eq_getElem h]
  exact List.getElem_mem h

/-- Taking indices `a*N, ..., a*N + N - 1` mod `N` gives `0, ..., N-1`. -/
theorem range'_map_mod (N a : Nat) :
    (List.range' (a * N) N).map (fun i => i % N) = List.range N := by
  rw [List.range'_eq_map_range, List.map_map]
  nth_rewrite 2 [← List.map_id (List.range N)]
  apply List.map_congr_left
  intro i hi
  simp only [List.mem_range] at hi
  simp only [Function.comp_apply, id]
  rw [Nat.add_comm, Nat.add_mul_mod_self_right, Nat.mod_eq_of_lt hi]

/-- `0, ..., 3N-1` as three blocks of length `N`. -/
theorem range'_split3 (N : Nat) :
    List.range' 0 (N * 3) =
      List.range' 0 N ++ (List.range' N N ++ List.range' (2 * N) N) := by
  have h1 := List.range'_append 0 N (N + N) 1
  have h2 := List.range'_append N N N 1
  simp only [Nat.one_mul, Nat.zero_add] at h1 h2
  have e1 : N * 3 = N + N + N := by ring
  have e2 : N + N = 2 * N := by ring
  rw [e1, ← h1, ← h2, e2]

/-- Indices `0, ..., 3N-1` taken mod `N`: the pattern `0..N-1` repeated
three times. -/
theorem range'_mod_three (N : Nat) :
    (List.range' 0 (N * 3)).map (fun i => i % N) =
      List.range N ++ List.range N ++ List.range N := by
  have e0 := range'_map_mod N 0
  have e1 := range'_map_mod N 1
  have e2 := range'_map_mod N 2
  simp only [Nat.zero_mul, Nat.one_mul] at e0 e1 e2
  rw [range'_split3, List.map_append, List.map_append, e0, e1, e2,
    ← List.append_assoc]

/-- Loop invariant for the retry loop of the workflow under consecutive
backend failures: entering `select_model` with `retry_count = j < 3N`, the
run selects indices `j % N, (j+1) % N, ...` and terminates at `END` with
`retry_count = 3N` and the last backend error recorded. -/
theorem routerFailLoop (env : RouterEnv) (models : List PyModel) (c tk : String)
    (errs : Nat → String)
    (hcne : c.isEmpty = false)
    (htk : mapClassificationToTier c = tk)
    (hcfg : cfgGet env.models_config tk = models)
    (hN : 0 < models.length)
    (hllm : ∀ k, env.llmCall k = .error (errs k))
    (herr : ∀ k, (errs k).isEmpty = false)
    (hext : ∀ m ∈ models, (PyModel.extract m).isEmpty = false) :
    ∀ (d j : Nat), models.length * 3 - j = d + 1 → j < models.length * 3 →
      ∀ (fuel : Nat), 2 * (d + 1) + 1 ≤ fuel →
      ∀ (q : String) (mt0 sel0 er0 um0 cr0 : Option String),
      execRouter env fuel .select_model
        { query := q, classification := some c, model_tier := mt0,
          selected_model := sel0, cache_hit := false, cached_response := cr0,
          llm_response := none, used_model := um0, error := er0,
          retry_count := j } =
      (.done { query := q, classification := some c, model_tier := some tk,
               selected_model := some ((models.getD
                 ((models.length * 3 - 1) % models.length) (.str "")).extract),
               cache_hit := false, cached_response := cr0,
               llm_response := none, used_model := um0,
               error := some (errs (models.length * 3)),
               retry_count := models.length * 3 },
        (List.range' j (models.length * 3 - j)).map
          (fun i => i % models.length)) := by
  have hIsE : models.isEmpty = false := by
    cases models with
    | nil => simp at hN
    | cons a l => rfl
  intro d
  induction d with
  | zero =>
    intro j hd hj fuel hfuel q mt0 sel0 er0 um0 cr0
    obtain ⟨f, rfl⟩ : ∃ f, fuel = f + 3 := ⟨fuel - 3, by omega⟩
    have hblt : ¬ (models.length * 3 ≤ j) := by omega
    have hjL : j + 1 = models.length * 3 := by omega
    have hj1 : j = models.length * 3 - 1 := by omega
    have hmem : models.getD (j % models.length) (.str "") ∈ models :=
      getD_mem_of_lt (Nat.mod_lt j hN) _
    have hm : ((models.getD (j % models.length) (.str "")).extract).isEmpty
        = false := hext _ hmem
    rw [List.getD_eq_getElem?_getD] at hm
    have hsel : selectModelF env
        { query := q, classification := some c, model_tier := mt0,
          selected_model := sel0, cache_hit := false, cached_response := cr0,
          llm_response := none, used_model := um0, error := er0,
          retry_count := j } =
        { query := q, classification := some c, model_tier := some tk,
          selected_model := some ((models.getD (j % models.length)
            (.str "")).extract),
          cache_hit := false, cached_response := cr0, llm_response := none,
          used_model := um0, error := none, retry_count := j + 1 } := by
      simp [selectModelF, hcne, htk, hcfg, hIsE, hblt]
    have hcall : callLLMF env
        { query := q, classification := some c, model_tier := some tk,
          selected_model := some ((models.getD (j % models.length)
            (.str "")).extract),
          cache_hit := false, cached_response := cr0, llm_response := none,
          used_model := um0, error := none, retry_count := j + 1 } =
        { query := q, classification := some c, model_tier := some tk,
          selected_model := some ((models.getD (j % models.length)
            (.str "")).extract),
          cache_hit := false, cached_response := cr0, llm_response := none,
          used_model := um0, error := some (errs (j + 1)),
          retry_count := j + 1 } := by
      simp [callLLMF, hm, hllm]
    have hhandle : handleLLMResponseF env
        { query := q, classification := some c, model_tier := some tk,
          selected_model := some ((models.getD (j % models.length)
            (.str "")).extract),
          cache_hit := false, cached_response := cr0, llm_response := none,
          used_model := um0, error := some (errs (j + 1)),
          retry_count := j + 1 } =
        (.err,
         { query := q, classification := some c, model_tier := some tk,
           selected_model := some ((models.getD (j % models.length)
             (.str "")).extract),
           cache_hit := false, cached_response := cr0, llm_response := none,
           used_model := um0, error := some (errs (j + 1)),
           retry_count := j + 1 }) := by
      simp [handleLLMResponseF, pyTruthy, tierOfClassification, htk, hcfg,
        herr, hjL]
    have hretry : shouldRetryF env
        { query := q, classification := some c, model_tier := some tk,
          selected_model := some ((models.getD (j % models.length)
            (.str "")).extract),
          cache_hit := false, cached_response := cr0, llm_response := none,
          used_model := um0, error := some (errs (j + 1)),
          retry_count := j + 1 } = false := by
      simp [shouldRetryF, tierOfClassification, htk, hcfg]
      omega
    have htr : models.length * 3 - j = 1 := by omega
    simp only [execRouter, hsel, hcall, hhandle, hretry, htr]
    simp [tierOfClassification, htk, hcfg, List.range']
    rw [hjL, ← hj1]
    exact ⟨rfl, rfl, rfl⟩
  | succ d ih =>
    intro j hd hj fuel hfuel q mt0 sel0 er0 um0 cr0
    obtain ⟨f, rfl⟩ : ∃ f, fuel = f + 2 := ⟨fuel - 2, by omega⟩
    have hblt : ¬ (models.length * 3 ≤ j) := by omega
    have hjlt : j + 1 < models.length * 3 := by omega
    have hmem : models.getD (j % models.length) (.str "") ∈ models :=
      getD_mem_of_lt (Nat.mod_lt j hN) _
    have hm : ((models.getD (j % models.length) (.str "")).extract).isEmpty
        = false := hext _ hmem
    rw [List.getD_eq_getElem?_getD] at hm
    have hsel : selectModelF env
        { query := q, classification := some c, model_tier := mt0,
          selected_model := sel0, cache_hit := false, cached_response := cr0,
          llm_response := none, used_model := um0, error := er0,
          retry_count := j } =
        { query := q, classification := some c, model_tier := some tk,
          selected_model := some ((models.getD (j % models.length)
            (.str "")).extract),
          cache_hit := false, cached_response := cr0, llm_response := none,
          used_model := um0, error := none, retry_count := j + 1 } := by
      simp [selectModelF, hcne, htk, hcfg, hIsE, hblt]
    have hcall : callLLMF env
        { query := q, classification := some c, model_tier := some tk,
          selected_model := some ((models.getD (j % models.length)
            (.str "")).extract),
          cache_hit := false, cached_response := cr0, llm_response := none,
          used_model := um0, error := none, retry_count := j + 1 } =
        { query := q, classification := some c, model_tier := some tk,
          selected_model := some ((models.getD (j % models.length)
            (.str "")).extract),
          cache_hit := false, cached_response := cr0, llm_response := none,
          used_model := um0, error := some (errs (j + 1)),
          retry_count := j + 1 } := by
      simp [callLLMF, hm, hllm]
    have hhandle : handleLLMResponseF env
        { query := q, classification := some c, model_tier := some tk,
          selected_model := some ((models.getD (j % models.length)
            (.str "")).extract),
          cache_hit := false, cached_response := cr0, llm_response := none,
          used_model := um0, error := some (errs (j + 1)),
          retry_count := j + 1 } =
        (.retry,
         { query := q, classification := some c, model_tier := some tk,
           selected_model := some ((models.getD (j % models.length)
             (.str "")).extract),
           cache_hit := false, cached_response := cr0, llm_response := none,
           used_model := um0, error := some (errs (j + 1)),
           retry_count := j + 1 }) := by
      simp [handleLLMResponseF, pyTruthy, tierOfClassification, htk, hcfg,
        herr, hjlt]
    have hrec := ih (j + 1) (by omega) hjlt f (by omega) q
      (some tk) (some ((models.getD (j % models.length) (.str "")).extract))
      (some (errs (j + 1))) um0 cr0
    have hsplit : models.length * 3 - j = (models.length * 3 - (j + 1)) + 1 := by
      omega
    have hrange : List.range' j (models.length * 3 - j) =
        j :: List.range' (j + 1) (models.length * 3 - (j + 1)) := by
      rw [hsplit]
      simp [List.range']
    simp only [execRouter, hsel, hcall, hhandle, hrec]
    rw [hrange]
    simp [tierOfClassification, htk, hcfg]

/-- C1: (1) each successful `select_model` step picks the candidate at index
`retry_count mod N` and increments `retry_count`; (2) under consecutive
backend failures with N ≥ 1 candidates, the run selects indices
`0..N-1` three times over and terminates at `END` with `retry_count = 3N`,
no response, and the last backend failure message as the error (the
terminal error of a budget-exhausted run aggregates the last backend
error); (3) with zero candidates the dispatch terminates immediately, with
no model ever selected: `select_model` records the no-candidates error
("No models available for ..."), which the subsequent `call_llm` step turns
into its terminal "No model selected for LLM call" error. -/
theorem c1_selection_and_retry_budget :
    (∀ (env : RouterEnv) (st : RouterState) (c : String)
        (models : List PyModel),
        st.classification = some c → c.isEmpty = false →
        cfgGet env.models_config (mapClassificationToTier c) = models →
        models.isEmpty = false → st.retry_count < models.length * 3 →
        selectModelF env st =
          { st with model_tier := some (mapClassificationToTier c),
                    selected_model := some ((models.getD
                      (st.retry_count % models.length) (.str "")).extract),
                    retry_count := st.retry_count + 1, error := none }) ∧
    (∀ (cfg : List (String × List PyModel)) (clf : String → String)
        (errs : Nat → String) (q : String) (models : List PyModel),
        q ≠ "" →
        (clf q = "S" ∨ clf q = "M" ∨ clf q = "A") →
        cfgGet cfg (mapClassificationToTier (clf q)) = models →
        0 < models.length →
        (∀ k, errs k ≠ "") →
        (∀ m ∈ models, PyModel.extract m ≠ "") →
        ∀ (fuel : Nat), models.length * 6 + 5 ≤ fuel →
        execRouter (failEnv cfg clf errs) fuel .check_cache
          (initRouterState q) =
        (.done { query := q, classification := some (clf q),
                 model_tier := some (mapClassificationToTier (clf q)),
                 selected_model := some ((models.getD
                   ((models.length * 3 - 1) % models.length) (.str "")).extract),
                 cache_hit := false, cached_response := none,
                 llm_response := none, used_model := none,
                 error := some (errs (models.length * 3)),
                 retry_count := models.length * 3 },
          List.range models.length ++ List.range models.length ++
            List.range models.length)) ∧
    (∀ (cfg : List (String × List PyModel)) (clf : String → String)
        (errs : Nat → String) (q : String),
        q ≠ "" →
        (clf q = "S" ∨ clf q = "M" ∨ clf q = "A") →
        cfgGet cfg (mapClassificationToTier (clf q)) = [] →
        (selectModelF (failEnv cfg clf errs)
            { query := q, classification := some (clf q) }).error =
          some ("No models available for " ++
            mapClassificationToTier (clf q)) ∧
        ∀ (fuel : Nat), 5 ≤ fuel →
        execRouter (failEnv cfg clf errs) fuel .check_cache
          (initRouterState q) =
        (.done { query := q, classification := some (clf q),
                 model_tier := none, selected_model := none,
                 cache_hit := false, cached_response := none,
                 llm_response := none, used_model := none,
                 error := some "No model selected for LLM call",
                 retry_count := 0 }, [])) := by
  refine ⟨?_, ?_, ?_⟩
  · intro env st c models hclass hcne hcfg hIsE hlt
    have hblt : ¬ (models.length * 3 ≤ st.retry_count) := by omega
    simp [selectModelF, hclass, hcne, hcfg, hIsE, hblt]
  · intro cfg clf errs q models hq hc hcfg hN herr hext fuel hfuel
    have hqe : q.isEmpty = false := by
      cases hq' : q.isEmpty with
      | false => rfl
      | true => exact absurd ((String.isEmpty_iff _).mp hq') hq
    have hcne : (clf q).isEmpty = false := by
      rcases hc with h | h | h <;> rw [h] <;> rfl
    have herr' : ∀ k, (errs k).isEmpty = false := by
      intro k
      cases hk : (errs k).isEmpty with
      | false => rfl
      | true => exact absurd ((String.isEmpty_iff _).mp hk) (herr k)
    have hext' : ∀ m ∈ models, (PyModel.extract m).isEmpty = false := by
      intro m hm
      cases hk : (PyModel.extract m).isEmpty with
      | false => rfl
      | true => exact absurd ((String.isEmpty_iff _).mp hk) (hext m hm)
    have hllm' : ∀ k, (failEnv cfg clf errs).llmCall k = .error (errs k) :=
      fun _ => rfl
    obtain ⟨f, rfl⟩ : ∃ f, fuel = f + 2 := ⟨fuel - 2, by omega⟩
    have hloop := routerFailLoop (failEnv cfg clf errs) models (clf q)
      (mapClassificationToTier (clf q)) errs hcne rfl hcfg hN hllm' herr'
      hext' (models.length * 3 - 1) 0 (by omega) (by omega) f (by omega) q
      none none none none none
    have hmod := range'_mod_three models.length
    rw [Nat.sub_zero] at hloop
    rw [hmod] at hloop
    simp only [execRouter, failEnv, initRouterState, checkCacheUpd,
      classifyQueryF, hqe, Bool.false_eq_true, if_false, hc, if_true]
    simp [classifyQueryF, hqe, hc]
    simpa using hloop
  · intro cfg clf errs q hq hc hcfg0
    have hqe : q.isEmpty = false := by
      cases hq' : q.isEmpty with
      | false => rfl
      | true => exact absurd ((String.isEmpty_iff _).mp hq') hq
    have hcne : (clf q).isEmpty = false := by
      rcases hc with h | h | h <;> rw [h] <;> rfl
    constructor
    · simp [selectModelF, failEnv, hcne, hcfg0]
    · intro fuel hfuel
      obtain ⟨f, rfl⟩ : ∃ f, fuel = f + 5 := ⟨fuel - 5, by omega⟩
      have hlit : ("No model selected for LLM call" : String).isEmpty
          = false := rfl
      simp [execRouter, failEnv, initRouterState, checkCacheUpd,
        classifyQueryF, selectModelF, callLLMF, handleLLMResponseF,
        shouldRetryF, pyTruthy, tierOfClassification, hqe, hc, hcne, hcfg0,
        hlit]

/-- Witness for C1: two candidates in tier2, classifier answering "M",
every backend call failing with "boom": the six selections are
`[0,1,0,1,0,1]` and the run terminates with the last backend error after
`retry_count = 6`. -/
theorem c1_selection_and_retry_budget_witness :
    execRouter (failEnv [("tier2", [PyModel.str "m1", PyModel.str "m2"])]
        (fun _ => "M") (fun _ => "boom")) 17 .check_cache
      (initRouterState "hi") =
    (.done { query := "hi", classification := some "M",
             model_tier := some "tier2", selected_model := some "m2",
             cache_hit := false, cached_response := none,
             llm_response := none, used_model := none,
             error := some "boom", retry_count := 6 },
      [0, 1, 0, 1, 0, 1]) := by
  have h := c1_selection_and_retry_budget.2.1
    [("tier2", [PyModel.str "m1", PyModel.str "m2"])] (fun _ => "M")
    (fun _ => "boom") "hi" [PyModel.str "m1", PyModel.str "m2"]
    (by decide) (by simp) (by rfl) (by decide) (fun k => by intro hk; simp at hk)
    (by decide) 17 (by decide)
  simpa using h

/-- C9: `Router.check_cache` calls `self.cache.get(state["query"])` with no
exception handling, so a raised cache lookup error propagates out of the
workflow and aborts the request (first conjunct) instead of degrading to a
cache miss; by contrast `Router.store_in_cache` swallows any cache error
and returns the state unchanged (second conjunct), so a run whose backend
call succeeded completes normally even when the cache write fails (third
conjunct). -/
theorem c9_cache_error_dispatch :
    (∀ (cfg : List (String × List PyModel)) (clf : String → String)
        (cs : Except String Unit) (llm : Nat → Except String String)
        (q e : String) (fuel : Nat), 1 ≤ fuel →
        execRouter { models_config := cfg, clf := clf, cacheGet := .error e,
                     cacheSet := cs, llmCall := llm } fuel .check_cache
          (initRouterState q) = (.raised e, [])) ∧
    (∀ (env : RouterEnv) (st : RouterState), storeInCacheF env st = st) ∧
    (∀ (cfg : List (String × List PyModel)) (clf : String → String)
        (q r e : String) (models : List PyModel),
        q.isEmpty = false →
        (clf q = "S" ∨ clf q = "M" ∨ clf q = "A") →
        cfgGet cfg (mapClassificationToTier (clf q)) = models →
        models.isEmpty = false →
        ((models.getD 0 (.str "")).extract).isEmpty = false →
        r.isEmpty = false →
        ∀ (fuel : Nat), 5 ≤ fuel →
        execRouter { models_config := cfg, clf := clf, cacheGet := .ok none,
                     cacheSet := .error e,
                     llmCall := fun _ => .ok r } fuel .check_cache
          (initRouterState q) =
        (.done { query := q, classification := some (clf q),
                 model_tier := some (mapClassificationToTier (clf q)),
                 selected_model := some ((models.getD 0 (.str "")).extract),
                 cache_hit := false, cached_response := none,
                 llm_response := some r,
                 used_model := some ((models.getD 0 (.str "")).extract),
                 error := none, retry_count := 1 }, [0])) := by
  refine ⟨?_, ?_, ?_⟩
  · intro cfg clf cs llm q e fuel hfuel
    obtain ⟨f, rfl⟩ : ∃ f, fuel = f + 1 := ⟨fuel - 1, by omega⟩
    simp [execRouter]
  · intro env st
    unfold storeInCacheF
    cases env.cacheSet <;> rfl
  · intro cfg clf q r e models hqe hc hcfg hIsE hm0 hr fuel hfuel
    have hcne : (clf q).isEmpty = false := by
      rcases hc with h | h | h <;> rw [h] <;> rfl
    have hlen : 0 < models.length := by
      cases models with
      | nil => simp at hIsE
      | cons a l => simp
    have hblt : ¬ (models.length * 3 ≤ 0) := by omega
    have hm0' := hm0
    rw [List.getD_eq_getElem?_getD] at hm0'
    obtain ⟨f, rfl⟩ : ∃ f, fuel = f + 5 := ⟨fuel - 5, by omega⟩
    simp [execRouter, initRouterState, checkCacheUpd, classifyQueryF,
      selectModelF, callLLMF, handleLLMResponseF, storeInCacheF, pyTruthy,
      tierOfClassification, hqe, hc, hcne, hcfg, hIsE, hblt, hm0', hr]

/-- Witness for C9: a failing cache lookup aborts the run; a failing cache
write does not prevent normal completion. -/
theorem c9_cache_error_dispatch_witness :
    execRouter { models_config := [("tier2", [PyModel.str "m1"])],
                 clf := fun _ => "M", cacheGet := .error "redis down",
                 cacheSet := .ok (), llmCall := fun _ => .ok "resp" } 1
        .check_cache (initRouterState "q") = (.raised "redis down", []) ∧
    execRouter { models_config := [("tier2", [PyModel.str "m1"])],
                 clf := fun _ => "M", cacheGet := .ok none,
                 cacheSet := .error "disk full",
                 llmCall := fun _ => .ok "resp" } 5 .check_cache
        (initRouterState "q") =
      (.done { query := "q", classification := some "M",
               model_tier := some "tier2", selected_model := some "m1",
               cache_hit := false, cached_response := none,
               llm_response := some "resp", used_model := some "m1",
               error := none, retry_count := 1 }, [0]) :=
  ⟨c9_cache_error_dispatch.1 _ _ _ _ "q" "redis down" 1 (by decide),
   by have h := c9_cache_error_dispatch.2.2 [("tier2", [PyModel.str "m1"])]
        (fun _ => "M") "q" "resp" "disk full" [PyModel.str "m1"]
        (by decide) (by simp) (by rfl) (by decide) (by decide) (by decide)
        5 (by decide)
      simpa using h⟩

/-- The `argmax` scan never returns an index beyond the scanned range. -/
theorem pyArgmaxAux_lt_bound :
    ∀ (l : List SimVal) (i best : Nat) (bv : SimVal), best < i →
      pyArgmaxAux l i bv best < i + l.length := by
  intro l
  induction l with
  | nil => intro i best bv h; simpa [pyArgmaxAux] using h
  | cons x rest ih =>
    intro i best bv h
    simp only [pyArgmaxAux]
    by_cases hx : SimVal.blt bv x = true
    · rw [if_pos hx]
      have := ih (i + 1) i x (by omega)
      simpa [Nat.add_comm, Nat.add_assoc, Nat.add_left_comm] using this
    · rw [if_neg hx]
      have := ih (i + 1) best bv (by omega)
      simpa [Nat.add_comm, Nat.add_assoc, Nat.add_left_comm] using this

/-- `np.argmax` of a non-empty list is a valid index. -/
theorem pyArgmax_lt_length (l : List SimVal) (h : l ≠ []) :
    pyArgmax l < l.length := by
  cases l with
  | nil => exact absurd rfl h
  | cons x rest =>
    simp only [pyArgmax, List.length_cons]
    have := pyArgmaxAux_lt_bound rest 1 0 x (by omega)
    omega

/-- If everything scanned so far is strictly below `y`, the scan of
`l ++ [y]` lands on the index of `y`. -/
theorem pyArgmaxAux_all_lt (y : SimVal) :
    ∀ (l : List SimVal) (i best : Nat) (bv : SimVal),
      SimVal.blt bv y = true → (∀ x ∈ l, SimVal.blt x y = true) →
      pyArgmaxAux (l ++ [y]) i bv best = i + l.length := by
  intro l
  induction l with
  | nil =>
    intro i best bv hbv _
    simp [pyArgmaxAux, hbv]
  | cons x rest ih =>
    intro i best bv hbv hall
    simp only [List.cons_append, pyArgmaxAux, List.append_eq]
    by_cases hx : SimVal.blt bv x = true
    · rw [if_pos hx]
      rw [ih (i + 1) i x (hall x (by simp)) (fun z hz => hall z (by simp [hz]))]
      simp [List.length_cons]
      omega
    · rw [if_neg hx]
      rw [ih (i + 1) best bv hbv (fun z hz => hall z (by simp [hz]))]
      simp [List.length_cons]
      omega

/-- First-max `argmax`: when all earlier scores are strictly below the last
one, the last index wins. -/
theorem pyArgmax_last (l : List SimVal) (y : SimVal)
    (hall : ∀ x ∈ l, SimVal.blt x y = true) :
    pyArgmax (l ++ [y]) = l.length := by
  cases l with
  | nil => simp [pyArgmax, pyArgmaxAux]
  | cons x rest =>
    simp only [List.cons_append, pyArgmax]
    rw [pyArgmaxAux_all_lt y rest 1 0 x (hall x (by simp))
      (fun z hz => hall z (by simp [hz]))]
    simp
    omega

/-- `getD` at the index right past `A` in `A ++ [y]` yields `y`. -/
theorem getD_append_singleton {α : Type} (A : List α) (y d : α) :
    (A ++ [y]).getD A.length d = y := by
  rw [List.getD_eq_getElem?_getD, List.getElem?_append_right (le_refl _)]
  simp

/-- C5: whatever `get` returns comes from a live entry: if
`get(query, threshold)` at time `now` returns `r`, some entry of the cache
has response `r` and satisfies `now - timestamp ≤ ttl`.  An entry past its
ttl is pruned by `_cleanup` before matching and is never the source of the
returned response. -/
theorem c5_no_expired_entry_returned (encode : String → List ℚ)
    (selfThreshold now : ℚ) (cache : List CacheEntry) (query : String)
    (thresholdArg : Option ℚ) (r : String)
    (h : cacheGetF encode selfThreshold now cache query thresholdArg
      = some r) :
    ∃ e ∈ cache, e.response = r ∧ now - e.timestamp ≤ e.ttl := by
  unfold cacheGetF at h
  dsimp only at h
  by_cases hle : (cacheCleanup now cache).isEmpty
  · rw [if_pos hle] at h
    cases h
  · rw [if_neg hle] at h
    split_ifs at h with hb
    · have hnil : cacheCleanup now cache ≠ [] := by
        intro hnil
        rw [hnil] at hle
        exact hle rfl
      have hmaplen :
          ((cacheCleanup now cache).map
            (fun it => simOf (encode query) it.embedding)).length
          = (cacheCleanup now cache).length := List.length_map _ _
      have hidx : pyArgmax ((cacheCleanup now cache).map
          (fun it => simOf (encode query) it.embedding))
          < (cacheCleanup now cache).length := by
        have := pyArgmax_lt_length ((cacheCleanup now cache).map
          (fun it => simOf (encode query) it.embedding))
          (by simpa using hnil)
        omega
      have hmem := getD_mem_of_lt hidx (default : CacheEntry)
      have hmem' := List.mem_filter.mp hmem
      refine ⟨_, hmem'.1, ?_, ?_⟩
      · exact Option.some.inj h
      · exact of_decide_eq_true hmem'.2

/-- A query has similarity value 1 against its own embedding, and 1 passes
every threshold `t ≤ 1`. -/
theorem SimVal.bge_self {S t : ℚ} (hS : 0 < S) (ht : t ≤ 1) :
    SimVal.bge ⟨S, S, S⟩ t = true := by
  have hnorm : SimVal.norm ⟨S, S, S⟩ = ⟨S, S, S⟩ := by
    unfold SimVal.norm
    rw [if_neg]
    push_neg
    exact ⟨hS, hS⟩
  unfold SimVal.bge
  dsimp only
  rw [hnorm]
  by_cases h2 : 0 < t
  · rw [if_pos h2]
    apply decide_eq_true
    dsimp only
    refine ⟨hS, ?_⟩
    have hts : t ^ 2 ≤ 1 := by nlinarith
    nlinarith [mul_le_mul_of_nonneg_right hts (mul_nonneg hS.le hS.le)]
  · rw [if_neg h2, if_pos (le_of_lt hS)]

/-- C4 (amended): `set(Q, R)` followed by an immediate `get(Q)` with any
threshold `t ≤ 1` returns `R`, provided the embedding of `Q` is non-zero
and no live entry already present has cosine similarity 1.0 with `Q`
(`np.argmax` keeps the first maximum, so an older entry with similarity
exactly 1.0 would win instead); the self-similarity of `Q` is exactly 1. -/
theorem c4_set_then_get (encode : String → List ℚ)
    (selfThreshold defaultTtl now : ℚ) (cache : List CacheEntry)
    (Q R : String) (t : ℚ)
    (hpos : 0 < dotQ (encode Q) (encode Q))
    (ht : t ≤ 1)
    (httl : 0 ≤ defaultTtl)
    (hprev : ∀ e ∈ cacheCleanup now cache,
      SimVal.blt (simOf (encode Q) e.embedding)
        (simOf (encode Q) (encode Q)) = true) :
    cacheGetF encode selfThreshold now
      (cacheSetF encode defaultTtl now cache Q R none) Q (some t) = some R ∧
    SimVal.toReal (simOf (encode Q) (encode Q)) = 1 := by
  constructor
  · obtain ⟨E, hEdef⟩ : ∃ E : CacheEntry,
        E = { embedding := encode Q, response := R, timestamp := now,
              ttl := defaultTtl } := ⟨_, rfl⟩
    have hE : cacheCleanup now (cacheSetF encode defaultTtl now cache Q R none)
        = cacheCleanup now cache ++ [E] := by
      rw [hEdef]
      unfold cacheSetF cacheCleanup
      rw [List.filter_append]
      congr 1
      simp [httl]
    have hmap : (cacheCleanup now cache ++ [E]).map
          (fun it => simOf (encode Q) it.embedding)
        = (cacheCleanup now cache).map
            (fun it => simOf (encode Q) it.embedding) ++
          [simOf (encode Q) (encode Q)] := by
      rw [List.map_append, hEdef]
      simp
    have hall : ∀ x ∈ (cacheCleanup now cache).map
        (fun it => simOf (encode Q) it.embedding),
        SimVal.blt x (simOf (encode Q) (encode Q)) = true := by
      intro x hx
      obtain ⟨e, he, rfl⟩ := List.mem_map.mp hx
      exact hprev e he
    have hargm := pyArgmax_last ((cacheCleanup now cache).map
        (fun it => simOf (encode Q) it.embedding))
        (simOf (encode Q) (encode Q)) hall
    have hbge : SimVal.bge (simOf (encode Q) (encode Q)) t = true :=
      SimVal.bge_self hpos ht
    unfold cacheGetF
    dsimp only
    rw [hE]
    rw [if_neg (by simp : ¬((cacheCleanup now cache ++ [E]).isEmpty = true))]
    rw [hmap, hargm, getD_append_singleton, List.length_map,
      getD_append_singleton]
    simp [hbge, hEdef]
  · unfold SimVal.toReal
    dsimp only
    have hnorm : SimVal.norm (simOf (encode Q) (encode Q))
        = simOf (encode Q) (encode Q) := by
      unfold SimVal.norm simOf
      rw [if_neg]
      push_neg
      exact ⟨hpos, hpos⟩
    rw [hnorm]
    unfold simOf
    dsimp only
    rw [Real.mul_self_sqrt (by exact_mod_cast hpos.le)]
    rw [div_self]
    exact_mod_cast ne_of_gt hpos

/-- C4 counterexample: with a deterministic embedding, caching the same
query twice with different responses and then calling `get` returns the
first (older) response, not the one just stored: `np.argmax` returns the
first index attaining the maximal similarity. -/
theorem c4_first_max_counterexample :
    cacheGetF encOne (1/2) 0
      (cacheSetF encOne 3600 0 (cacheSetF encOne 3600 0 [] "Q" "r1" none)
        "Q" "r2" none) "Q" none = some "r1" ∧
    some "r1" ≠ some "r2" := by
  constructor
  · norm_num [cacheGetF, cacheSetF, cacheCleanup, dotQ, simOf, pyArgmax,
      pyArgmaxAux, SimVal.bge, SimVal.blt, SimVal.norm, encOne]
  · simp

/-- Witness for C4 on the empty cache with the default threshold 0.5. -/
theorem c4_set_then_get_witness :
    cacheGetF encOne (1/2) 0 (cacheSetF encOne 3600 0 [] "Q" "R" none)
      "Q" (some (1/2)) = some "R" ∧
    SimVal.toReal (simOf (encOne "Q") (encOne "Q")) = 1 :=
  c4_set_then_get encOne (1/2) 3600 0 [] "Q" "R" (1/2)
    (by norm_num [dotQ, encOne]) (by norm_num) (by norm_num)
    (by simp [cacheCleanup])

/-- Witness for C5: a live hit traced back to its entry, and the
specification's concrete scenario: an entry stored with ttl = 1 at time 0
is not returned at time 2. -/
theorem c5_no_expired_entry_returned_witness :
    cacheGetF encOne (1/2) 2 (cacheSetF encOne 3600 0 [] "Q" "R" none)
      "Q" none = some "R" ∧
    (∃ e ∈ cacheSetF encOne 3600 0 [] "Q" "R" none,
      e.response = "R" ∧ (2 : ℚ) - e.timestamp ≤ e.ttl) ∧
    cacheGetF encOne (1/2) 2 (cacheSetF encOne 3600 0 [] "Q" "R" (some 1))
      "Q" none = none := by
  have heval : cacheGetF encOne (1/2) 2 (cacheSetF encOne 3600 0 [] "Q" "R"
      none) "Q" none = some "R" := by
    norm_num [cacheGetF, cacheSetF, cacheCleanup, dotQ, simOf, pyArgmax,
      pyArgmaxAux, SimVal.bge, SimVal.norm, encOne]
  refine ⟨heval, c5_no_expired_entry_returned encOne (1/2) 2 _ "Q" none "R"
    heval, ?_⟩
  norm_num [cacheGetF, cacheSetF, cacheCleanup, dotQ, simOf, pyArgmax,
    pyArgmaxAux, SimVal.bge, SimVal.norm, encOne]

/-- C6: on the free tier (5/minute), a fresh identifier issuing six
requests inside one 60-second window is admitted five times, denied on the
sixth with the minute-rate reason, and the reported remaining-minute count
afterwards is 0. -/
theorem c6_free_tier_five_then_denied (nextReset t1 t2 t3 t4 t5 t6 : ℚ)
    (_h12 : t1 ≤ t2) (h23 : t2 ≤ t3) (h34 : t3 ≤ t4) (h45 : t4 ≤ t5)
    (h56 : t5 ≤ t6) (hwin : t6 - t1 ≤ 60) :
    (runRequests defaultRateLimitConfig nextReset false .free
        [t1, t2, t3, t4, t5, t6] emptyRLState).1 =
      [(true, none), (true, none), (true, none), (true, none), (true, none),
       (false, some (.minuteExceeded 5))] ∧
    (getRateLimitHeaders .free
      (runRequests defaultRateLimitConfig nextReset false .free
        [t1, t2, t3, t4, t5, t6] emptyRLState).2).remainingMinute = 0 := by
  have a2 : ¬((60:ℚ) < t2 - t1) := by linarith
  have a3 : ¬((60:ℚ) < t3 - t1) := by linarith
  have a4 : ¬((60:ℚ) < t4 - t1) := by linarith
  have a5 : ¬((60:ℚ) < t5 - t1) := by linarith
  have a6 : ¬((60:ℚ) < t6 - t1) := by linarith
  have b2 : ¬((3600:ℚ) < t2 - t1) := by linarith
  have b3 : ¬((3600:ℚ) < t3 - t1) := by linarith
  have b4 : ¬((3600:ℚ) < t4 - t1) := by linarith
  have b5 : ¬((3600:ℚ) < t5 - t1) := by linarith
  have b6 : ¬((3600:ℚ) < t6 - t1) := by linarith
  have c2 : ¬((86400:ℚ) < t2 - t1) := by linarith
  have c3 : ¬((86400:ℚ) < t3 - t1) := by linarith
  have c4 : ¬((86400:ℚ) < t4 - t1) := by linarith
  have c5 : ¬((86400:ℚ) < t5 - t1) := by linarith
  have c6 : ¬((86400:ℚ) < t6 - t1) := by linarith
  constructor <;>
    simp [runRequests, checkRateLimit, checkRateLimitAfterBan,
      checkUserQuota, checkAdaptiveThrottle, recordViolation, dropExpired,
      tierLimits, defaultRateLimitConfig, emptyRLState, getRateLimitHeaders,
      avgLoad, a2, a3, a4, a5, a6, b2, b3, b4, b5, b6, c2, c3, c4, c5, c6]

/-- Witness for C6 at arrival times 0, 10, 20, 30, 40, 50. -/
theorem c6_free_tier_five_then_denied_witness :
    (runRequests defaultRateLimitConfig 0 false .free [0, 10, 20, 30, 40, 50]
        emptyRLState).1 =
      [(true, none), (true, none), (true, none), (true, none), (true, none),
       (false, some (.minuteExceeded 5))] ∧
    (getRateLimitHeaders .free
      (runRequests defaultRateLimitConfig 0 false .free
        [0, 10, 20, 30, 40, 50] emptyRLState).2).remainingMinute = 0 :=
  c6_free_tier_five_then_denied 0 0 10 20 30 40 50 (by norm_num)
    (by norm_num) (by norm_num) (by norm_num) (by norm_num) (by norm_num)

/-- C10 (amended): a denied `check_rate_limit` call leaves the three window
buckets unchanged except for expiry pruning (a ban-check denial does not
even prune), and a timestamp is appended to the three buckets exactly when
the request is allowed.  A denial never consumes window capacity. -/
theorem c10_denied_request_keeps_buckets (cfg : RateLimitConfig)
    (now nextReset : ℚ) (hasUser : Bool) (tier : RLTier) (st : RLState) :
    ((checkRateLimit cfg now nextReset hasUser tier st).1.1 = false →
      (((checkRateLimit cfg now nextReset hasUser tier st).2.minute_bucket
          = st.minute_bucket ∧
        (checkRateLimit cfg now nextReset hasUser tier st).2.hour_bucket
          = st.hour_bucket ∧
        (checkRateLimit cfg now nextReset hasUser tier st).2.day_bucket
          = st.day_bucket) ∨
       ((checkRateLimit cfg now nextReset hasUser tier st).2.minute_bucket
          = dropExpired 60 now st.minute_bucket ∧
        (checkRateLimit cfg now nextReset hasUser tier st).2.hour_bucket
          = dropExpired 3600 now st.hour_bucket ∧
        (checkRateLimit cfg now nextReset hasUser tier st).2.day_bucket
          = dropExpired 86400 now st.day_bucket))) ∧
    ((checkRateLimit cfg now nextReset hasUser tier st).1.1 = true →
      (checkRateLimit cfg now nextReset hasUser tier st).2.minute_bucket
        = dropExpired 60 now st.minute_bucket ++ [now] ∧
      (checkRateLimit cfg now nextReset hasUser tier st).2.hour_bucket
        = dropExpired 3600 now st.hour_bucket ++ [now] ∧
      (checkRateLimit cfg now nextReset hasUser tier st).2.day_bucket
        = dropExpired 86400 now st.day_bucket ++ [now]) := by
  unfold checkRateLimit checkRateLimitAfterBan
  rcases hb : st.banned_until with _ | b <;>
    dsimp only <;>
    split_ifs <;>
    simp_all [recordViolation, checkUserQuota]

/-- C10 counterexample, against the parenthetical that only the violation
counter and ban state can change on a denial: with high recorded system
load and a fresh authenticated user, the quota check first creates the
user-quota record and the adaptive throttle then denies the request; the
denied call changed the user-quota map while violations and ban state are
untouched. -/
theorem c10_quota_change_on_denial_counterexample :
    (checkRateLimit defaultRateLimitConfig 0 100 true .free
      { minute_bucket := [], hour_bucket := [], day_bucket := [],
        violations := 0, banned_until := none, user_quota := none,
        system_load := [1] }).1.1 = false ∧
    (checkRateLimit defaultRateLimitConfig 0 100 true .free
      { minute_bucket := [], hour_bucket := [], day_bucket := [],
        violations := 0, banned_until := none, user_quota := none,
        system_load := [1] }).2.user_quota =
      some { tier := .free, daily_limit := 100, used_today := 0,
             reset_time := 100 } ∧
    (checkRateLimit defaultRateLimitConfig 0 100 true .free
      { minute_bucket := [], hour_bucket := [], day_bucket := [],
        violations := 0, banned_until := none, user_quota := none,
        system_load := [1] }).2.violations = 0 ∧
    (checkRateLimit defaultRateLimitConfig 0 100 true .free
      { minute_bucket := [], hour_bucket := [], day_bucket := [],
        violations := 0, banned_until := none, user_quota := none,
        system_load := [1] }).2.banned_until = none := by
  norm_num [checkRateLimit, checkRateLimitAfterBan, checkUserQuota,
    checkAdaptiveThrottle, avgLoad, dropExpired, tierLimits,
    defaultRateLimitConfig]

/-- Witness for C10 at a concrete denial: minute window full. -/
theorem c10_denied_request_keeps_buckets_witness :
    (checkRateLimit defaultRateLimitConfig 0 0 false .free
      { minute_bucket := [0, 0, 0, 0, 0], hour_bucket := [0, 0, 0, 0, 0],
        day_bucket := [0, 0, 0, 0, 0], violations := 0, banned_until := none,
        user_quota := none, system_load := [] }).1.1 = false ∧
    (((checkRateLimit defaultRateLimitConfig 0 0 false .free
      { minute_bucket := [0, 0, 0, 0, 0], hour_bucket := [0, 0, 0, 0, 0],
        day_bucket := [0, 0, 0, 0, 0], violations := 0, banned_until := none,
        user_quota := none, system_load := [] }).2.minute_bucket
        = [0, 0, 0, 0, 0] ∧
      (checkRateLimit defaultRateLimitConfig 0 0 false .free
      { minute_bucket := [0, 0, 0, 0, 0], hour_bucket := [0, 0, 0, 0, 0],
        day_bucket := [0, 0, 0, 0, 0], violations := 0, banned_until := none,
        user_quota := none, system_load := [] }).2.hour_bucket
        = [0, 0, 0, 0, 0] ∧
      (checkRateLimit defaultRateLimitConfig 0 0 false .free
      { minute_bucket := [0, 0, 0, 0, 0], hour_bucket := [0, 0, 0, 0, 0],
        day_bucket := [0, 0, 0, 0, 0], violations := 0, banned_until := none,
        user_quota := none, system_load := [] }).2.day_bucket
        = [0, 0, 0, 0, 0]) ∨
     ((checkRateLimit defaultRateLimitConfig 0 0 false .free
      { minute_bucket := [0, 0, 0, 0, 0], hour_bucket := [0, 0, 0, 0, 0],
        day_bucket := [0, 0, 0, 0, 0], violations := 0, banned_until := none,
        user_quota := none, system_load := [] }).2.minute_bucket
        = dropExpired 60 0 [0, 0, 0, 0, 0] ∧
      (checkRateLimit defaultRateLimitConfig 0 0 false .free
      { minute_bucket := [0, 0, 0, 0, 0], hour_bucket := [0, 0, 0, 0, 0],
        day_bucket := [0, 0, 0, 0, 0], violations := 0, banned_until := none,
        user_quota := none, system_load := [] }).2.hour_bucket
        = dropExpired 3600 0 [0, 0, 0, 0, 0] ∧
      (checkRateLimit defaultRateLimitConfig 0 0 false .free
      { minute_bucket := [0, 0, 0, 0, 0], hour_bucket := [0, 0, 0, 0, 0],
        day_bucket := [0, 0, 0, 0, 0], violations := 0, banned_until := none,
        user_quota := none, system_load := [] }).2.day_bucket
        = dropExpired 86400 0 [0, 0, 0, 0, 0])) :=
  ⟨by norm_num [checkRateLimit, checkRateLimitAfterBan, checkUserQuota,
      checkAdaptiveThrottle, avgLoad, dropExpired, tierLimits,
      defaultRateLimitConfig],
   (c10_denied_request_keeps_buckets defaultRateLimitConfig 0 0 false .free
      { minute_bucket := [0, 0, 0, 0, 0], hour_bucket := [0, 0, 0, 0, 0],
        day_bucket := [0, 0, 0, 0, 0], violations := 0, banned_until := none,
        user_quota := none, system_load := [] }).1
    (by norm_num [checkRateLimit, checkRateLimitAfterBan, checkUserQuota,
      checkAdaptiveThrottle, avgLoad, dropExpired, tierLimits,
      defaultRateLimitConfig])⟩

/-- C7: `route` restores its own candidate list after every query (first
conjunct), but the update it pushed into the shared LLM client is never
reverted: after query A with a private override, query B (no overrides)
runs against a client whose tier1 fallback list still starts with A's
private model and whose credential map still holds A's API key —
cross-request leakage of the override and credential. -/
theorem c7_override_leak :
    (∀ (MC : List (String × List PyModel)) (r : RouterObj)
        (um : Option (List (String × List UserModel))),
        (routeEffects MC r um).models_config = r.models_config) ∧
    routeEffects mcLeak (routeEffects mcLeak routerLeak (some umLeak)) none
      = routeEffects mcLeak routerLeak (some umLeak) ∧
    (routeEffects mcLeak routerLeak (some umLeak)).llm_client.cfg.lookup
        "tier1"
      = some [.pair "private-model" "userco/private-model:free",
              .pair "m1" "prov/m1:free"] ∧
    (routeEffects mcLeak routerLeak (some umLeak)).llm_client.user_api_keys
      = [("userco/private-model:free", "sk-secret")] ∧
    routerLeak.llm_client.user_api_keys = [] := by
  refine ⟨?_, rfl, ?_, ?_, rfl⟩
  · intro MC r um
    cases um with
    | none => rfl
    | some um => rfl
  · rfl
  · rfl
